import Mathlib

/-
  Verification of the Hidemyacc / TikTok Seller Center orchestration layer.

  Shallow embedding of:
    - src/main.ts          (window slot allocator, direct data fetch, batch orchestrator)
    - src/credentials-reader.ts (spreadsheet credential store)
    - the login module (tiktok-login.ts)

  JavaScript strings are modelled as lists of characters (JStr); JS string
  truthiness is modelled as non-emptiness, and the only falsy string is the
  empty string.  Machine integers do not overflow in any code path modelled
  here (epoch milliseconds fit in a double exactly), so timestamps are plain
  integers.
-/

set_option maxRecDepth 4000

-- ===========================================================
-- JS string model
-- ===========================================================

/-- JavaScript string, modelled as a list of characters. -/
abbrev JStr := List Char

/-- Conversion from Lean string literals to the JS string model. -/
def js (s : String) : JStr := s.toList

/-- Whitespace test used by String.prototype.trim (ASCII subset). -/
def isWsChar (c : Char) : Bool := c == ' ' || c == '\t' || c == '\n' || c == '\r'

/-- Model of String.prototype.trim: drop leading and trailing whitespace. -/
def trimStr (s : JStr) : JStr := ((s.dropWhile isWsChar).reverse.dropWhile isWsChar).reverse

/-- Model of String.prototype.toLowerCase (ASCII subset). -/
def lowerStr (s : JStr) : JStr := s.map Char.toLower

/-- Helper for substring search: does the second list occur at the head of the first. -/
def leadsWith : JStr → JStr → Bool
  | _, [] => true
  | [], _ :: _ => false
  | c :: s, d :: t => c == d && leadsWith s t

/-- Model of String.prototype.includes: substring occurrence test. -/
def containsStr : JStr → JStr → Bool
  | [], sub => leadsWith [] sub
  | s@(_ :: rest), sub => leadsWith s sub || containsStr rest sub

/-- Model of the JS expression a || b on strings: empty strings are falsy. -/
def jsOrS (a b : JStr) : JStr := if a.isEmpty then b else a

/-- Model of the JS expression v || b where v is an optional string field
(undefined and the empty string are both falsy). -/
def jsOr (a : Option JStr) (b : JStr) : JStr :=
  match a with
  | none => b
  | some s => if s.isEmpty then b else s

-- ===========================================================
-- Window slot allocator (src/main.ts lines 13-29)
-- ===========================================================

/-- Grid layout capacity, MAX_WINDOWS = 5 in src/main.ts. -/
def MAX_WINDOWS : ℕ := 5

/-- Model of getNextWindowPosition: scan i = 0..MAX_WINDOWS-1 for the first
index not in usedWindowPositions, add it to the set and return it; if all
are used, return 0 without touching the set (the wrap-around branch). -/
def getNextWindowPosition (used : Finset ℕ) : ℕ × Finset ℕ :=
  match (List.range MAX_WINDOWS).find? (fun i => decide (i ∉ used)) with
  | some i => (i, insert i used)
  | none => (0, used)

/-- Model of releaseWindowPosition: Set.prototype.delete. -/
def releaseWindowPosition (used : Finset ℕ) (i : ℕ) : Finset ℕ := used.erase i

/-- Allocator operations, for reasoning about acquire and release traces. -/
inductive AllocOp where
  | acq : AllocOp
  | rel : ℕ → AllocOp
deriving DecidableEq

/-- One allocator step: effect of an operation on the used-position set. -/
def allocStep (used : Finset ℕ) : AllocOp → Finset ℕ
  | .acq => (getNextWindowPosition used).2
  | .rel i => releaseWindowPosition used i

/-- Run a list of allocator operations from a starting set. -/
def allocRun (used : Finset ℕ) : List AllocOp → Finset ℕ
  | [] => used
  | op :: ops => allocRun (allocStep used op) ops

/-- Traces in which every acquire happens while strictly fewer than
MAX_WINDOWS slots are concurrently held. -/
def allocSafe (used : Finset ℕ) : List AllocOp → Bool
  | [] => true
  | .acq :: ops => decide (used.card < MAX_WINDOWS) && allocSafe (allocStep used .acq) ops
  | .rel i :: ops => allocSafe (allocStep used (.rel i)) ops

-- ===========================================================
-- ECMAScript date arithmetic (Date.UTC), for getMonthTimestamps
-- (src/main.ts lines 311-344)
-- ===========================================================

/-- ECMAScript leap year rule (divisible by 4 and not by 100, or by 400). -/
def isLeapYear (y : ℤ) : Bool := y % 4 == 0 && (y % 100 != 0 || y % 400 == 0)

/-- ECMAScript DayFromYear: day number of 1 January of year y, day 0 being
1 January 1970 (integer division is floor division, divisors positive). -/
def dayFromYear (y : ℤ) : ℤ :=
  365 * (y - 1970) + (y - 1969) / 4 - (y - 1901) / 100 + (y - 1601) / 400

/-- Cumulative day count at the start of 0-indexed month mn within a year. -/
def monthStart (leap : Bool) (mn : ℕ) : ℤ :=
  let l : ℤ := if leap then 1 else 0
  match mn with
  | 0 => 0
  | 1 => 31
  | 2 => 59 + l
  | 3 => 90 + l
  | 4 => 120 + l
  | 5 => 151 + l
  | 6 => 181 + l
  | 7 => 212 + l
  | 8 => 243 + l
  | 9 => 273 + l
  | 10 => 304 + l
  | 11 => 334 + l
  | _ => 0

/-- Number of days in 0-indexed month mn of a year with the given leap flag. -/
def daysInMonthTbl (leap : Bool) (mn : ℕ) : ℤ :=
  let l : ℤ := if leap then 1 else 0
  match mn with
  | 0 => 31
  | 1 => 28 + l
  | 2 => 31
  | 3 => 30
  | 4 => 31
  | 5 => 30
  | 6 => 31
  | 7 => 31
  | 8 => 30
  | 9 => 31
  | 10 => 30
  | 11 => 31
  | _ => 0

/-- ECMAScript MakeDay for a 0-indexed month argument m (months at or above
12 overflow into later years) and a day-of-month argument d (d = 0 and
negative values underflow into the previous month at the millisecond level;
here d is only ever at least 1). -/
def makeDay (y : ℤ) (m : ℕ) (d : ℤ) : ℤ :=
  dayFromYear (y + (m / 12 : ℕ)) +
    monthStart (isLeapYear (y + (m / 12 : ℕ))) (m % 12) + (d - 1)

def msPerDay : ℤ := 86400000

/-- ECMAScript MakeTime: hours, minutes, seconds and milliseconds are taken
as given (hour values at or above 24 simply overflow into later days). -/
def makeTime (h mi s ms : ℤ) : ℤ := h * 3600000 + mi * 60000 + s * 1000 + ms

/-- ECMAScript two-digit-year adjustment: years in [0, 99] are interpreted
as 1900 + y by Date.UTC and by the Date constructor. -/
def jsYearAdj (y : ℤ) : ℤ := if 0 ≤ y ∧ y ≤ 99 then 1900 + y else y

/-- Model of Date.UTC(y, m, d, h, mi, s, ms) as epoch milliseconds. -/
def dateUTC (y : ℤ) (m : ℕ) (d h mi s ms : ℤ) : ℤ :=
  makeDay (jsYearAdj y) m d * msPerDay + makeTime h mi s ms

/-- Model of the expression new Date(year, month + 1, 0).getDate() from
getMonthTimestamps: day 0 of the next month is the last day of month m, so
getDate() yields the number of days in 0-indexed month m of year y
(time-zone offsets never move the civil date of a local round-trip; the
constructor applies the same two-digit-year rule as Date.UTC). -/
def lastDayOfMonth (y : ℤ) (m : ℕ) : ℤ :=
  daysInMonthTbl (isLeapYear (jsYearAdj y)) m

/-- Model of getMonthTimestamps (src/main.ts lines 322-329): lower is
Date.UTC(year, month, 1, 8, 0, 0) and upper is
Date.UTC(year, month, lastDay, 31, 59, 59, 999). -/
def getMonthTimestamps (year : ℤ) (month : ℕ) : ℤ × ℤ :=
  (dateUTC year month 1 8 0 0 0,
   dateUTC year month (lastDayOfMonth year month) 31 59 59 999)

/-- One row of the monthly settlement series. -/
structure MonthEntry where
  date_time_lower : ℤ
  date_time_upper : ℤ
  settlement : JStr
deriving DecidableEq

/-- Model of fetchMonth (src/main.ts lines 332-344): the month timestamps
are computed locally; the API call either throws (settlement becomes the
Error marker) or returns an optional formatted settlement figure defaulted
to the zero-dollar string by the JS or-fallback. -/
def fetchMonth (api : ℤ → ℕ → Except Unit (Option JStr)) (year : ℤ) (month : ℕ) : MonthEntry :=
  let ts := getMonthTimestamps year month
  { date_time_lower := ts.1
    date_time_upper := ts.2
    settlement :=
      match api year month with
      | .error _ => js "Error"
      | .ok v => jsOr v (js "$0") }

/-- Model of the monthly settlement loop of fetchTikTokDataFast
(src/main.ts lines 346-364): 12 months of the previous calendar year
followed by months 0 .. currentMonth of the current year. -/
def monthlySeries (api : ℤ → ℕ → Except Unit (Option JStr))
    (currentYear : ℤ) (currentMonth : ℕ) : List MonthEntry :=
  (List.range 12).map (fun m => fetchMonth api (currentYear - 1) m) ++
    (List.range (currentMonth + 1)).map (fun m => fetchMonth api currentYear m)

-- Spec-side month boundary functions (from the words of the spec)

/-- Modelled from the spec words: the epoch-millisecond timestamp of the
first instant (00:00:00.000) of day 1 of the month, in the fixed reference
timezone UTC-8 (a local civil time t in UTC-8 is the UTC instant t + 8h). -/
def firstInstantUTCm8 (year : ℤ) (month : ℕ) : ℤ :=
  dateUTC year month 1 0 0 0 0 + 8 * 3600000

/-- Modelled from the spec words: the epoch-millisecond timestamp of the
last instant (23:59:59.999) of the last day of the month, in UTC-8. -/
def lastInstantUTCm8 (year : ℤ) (month : ℕ) : ℤ :=
  dateUTC year month (lastDayOfMonth year month) 23 59 59 999 + 8 * 3600000

-- ===========================================================
-- Session extraction strategies (src/main.ts lines 81-94 and 139-224)
-- ===========================================================

/-- An observed URL: the raw string (for the includes pre-checks), whether
new URL(url) parses, and the query parameters in order. -/
structure UrlObs where
  raw : JStr
  valid : Bool
  params : List (JStr × JStr)
deriving DecidableEq

/-- Model of URLSearchParams.get: first parameter with the given key, null
when absent. -/
def searchParamsGet (ps : List (JStr × JStr)) (k : JStr) : Option JStr :=
  (ps.find? (fun p => p.1 == k)).map (fun p => p.2)

/-- Model of extractSellerIdFromUrl (src/main.ts lines 81-94): parse the
URL, read the seller_id and oec_seller_id query parameters, and return the
pair only when both are truthy (non-null and non-empty). -/
def extractSellerIdFromUrl (u : UrlObs) : Option (JStr × JStr) :=
  if u.valid then
    match searchParamsGet u.params (js "seller_id"),
        searchParamsGet u.params (js "oec_seller_id") with
    | some s, some o => if s.isEmpty || o.isEmpty then none else some (s, o)
    | _, _ => none
  else none

/-- What the extraction loop of fetchTikTokDataFast can observe: the
network responses seen by the response listener, the current page URL, and
the seller_id harvested from the page DOM blobs (atlas-data or
NEXT_DATA), already subjected to the JS truthiness check inside
page.evaluate. -/
structure PollEnv where
  network : List UrlObs
  currentUrl : UrlObs
  dom : Option JStr

/-- Model of the network response listener (src/main.ts lines 143-156):
the first response whose raw URL passes both includes pre-checks and from
which extractSellerIdFromUrl extracts a pair. -/
def scanNetwork : List UrlObs → Option (JStr × JStr)
  | [] => none
  | u :: rest =>
    if containsStr u.raw (js "seller-us.tiktok.com") && containsStr u.raw (js "seller_id=") then
      match extractSellerIdFromUrl u with
      | some p => some p
      | none => scanNetwork rest
    else scanNetwork rest

/-- Model of the active URL poll (src/main.ts lines 174-183). -/
def pollCurrentUrl (u : UrlObs) : Option (JStr × JStr) :=
  if containsStr u.raw (js "seller_id=") then extractSellerIdFromUrl u else none

/-- Model of the DOM poll (src/main.ts lines 185-207): a single seller_id
harvested from the page is used for both identifier fields. -/
def pollDom (dom : Option JStr) : Option (JStr × JStr) :=
  match dom with
  | none => none
  | some id => if id.isEmpty then none else some (id, id)

/-- Model of the seller-id race of fetchTikTokDataFast: the network
listener, the URL poll and the DOM poll, in the priority order of the
polling loop. -/
def findSeller (env : PollEnv) : Option (JStr × JStr) :=
  match scanNetwork env.network with
  | some p => some p
  | none =>
    match pollCurrentUrl env.currentUrl with
    | some p => some p
    | none => pollDom env.dom

/-- Concrete extraction run: nothing on the network, a parameter-free
current URL, and a DOM blob carrying the single seller_id 123. -/
def domOnlyRun : PollEnv :=
  { network := [],
    currentUrl :=
      { raw := js "https://seller-us.tiktok.com/homepage", valid := true, params := [] },
    dom := some (js "123") }

/-- Concrete URL observation carrying both identifier parameters. -/
def urlWithBothIds : UrlObs :=
  { raw := js "x", valid := true,
    params := [(js "seller_id", js "7"), (js "oec_seller_id", js "8")] }

-- ===========================================================
-- Direct data fetch (fetchTikTokDataFast, src/main.ts lines 119-382)
-- ===========================================================

/-- A captured cookie (src/main.ts CookieData). -/
structure CookieData where
  name : JStr
  value : JStr
  domain : JStr
deriving DecidableEq

/-- Outcome of the browser phase of fetchTikTokDataFast (the big try block,
src/main.ts lines 129-234): either it runs to completion, or it throws at
some point with a message; sellerId, oecSellerId and cookies hold whatever
had been assigned before the throw (the empty string and the empty list
when the throw came first, as in the seller-id timeout at line 217). -/
inductive BrowserPhase where
  | ok (sellerId oecSellerId : JStr) (cookies : List CookieData)
  | err (sellerId oecSellerId : JStr) (cookies : List CookieData) (msg : JStr)

/-- Model of the network-error classification in the catch block
(src/main.ts lines 240-248): lastNetworkError stays empty unless the
message matches one of the four known transport error substrings. -/
def classifyNetworkError (msg : JStr) : JStr :=
  if containsStr msg (js "ERR_PROXY_CONNECTION_FAILED") then js "⚠ Proxy dead/unavailable"
  else if containsStr msg (js "ERR_TIMED_OUT") then js "⚠ Network timeout"
  else if containsStr msg (js "ERR_CONNECTION_REFUSED") then js "⚠ Connection refused"
  else if containsStr msg (js "ERR_NAME_NOT_RESOLVED") then js "⚠ DNS resolution failed"
  else js ""

/-- Control-plane and timing events observed while a job runs. -/
inductive CallEv where
  | startCall : CallEv
  | statusCall : CallEv
  | stopCall (ok : Bool) : CallEv
  | sleepEv (ms : ℕ) : CallEv
deriving DecidableEq

/-- External outcomes consumed by one run of fetchTikTokDataFast: the
browser phase, whether the stop API call itself succeeds, the two
statement API calls, the per-month settlement API, and the current date. -/
structure FetchEnv where
  phase : BrowserPhase
  stopOk : Bool
  api1 : Except JStr (Option JStr)
  api2 : Except JStr (Option JStr)
  monthlyApi : ℤ → ℕ → Except Unit (Option JStr)
  currentYear : ℤ
  currentMonth : ℕ

/-- Result record of fetchTikTokDataFast (TikTokFinanceResult restricted
to the fields the orchestrator reads). -/
structure FetchData where
  sellerId : JStr
  oecSellerId : JStr
  onHoldAmount : JStr
  sumAmount : JStr
  monthly : List MonthEntry
deriving DecidableEq

/-- Model of fetchTikTokDataFast (src/main.ts lines 119-382). The browser
phase either completes or is caught (the catch only classifies the message
into lastNetworkError and cleans up); the profile stop API is then always
called, its own failure swallowed (line 255-262); extraction is checked
(line 265-271); then API 1 (fatal on failure), API 2 (non-fatal) and the
monthly loop run. The returned trace lists the control-plane calls made. -/
def fetchTikTokDataFast (env : FetchEnv) : Except JStr FetchData × List CallEv :=
  let post :=
    match env.phase with
    | .ok s o c => (s, o, c, js "")
    | .err s o c m => (s, o, c, classifyNetworkError m)
  let sellerId := post.1
  let oecSellerId := post.2.1
  let cookies := post.2.2.1
  let lastNetworkError := post.2.2.2
  let trace := [CallEv.stopCall env.stopOk]
  if sellerId.isEmpty || cookies.isEmpty then
    (Except.error
      (if lastNetworkError.isEmpty then js "Failed to extract seller_id or cookies"
       else lastNetworkError), trace)
  else
    match env.api1 with
    | .error m => (Except.error m, trace)
    | .ok onHold =>
      (Except.ok
        { sellerId := sellerId
          oecSellerId := oecSellerId
          onHoldAmount := jsOr onHold (js "N/A")
          sumAmount :=
            match env.api2 with
            | .error _ => js "N/A"
            | .ok v => jsOr v (js "N/A")
          monthly := monthlySeries env.monthlyApi env.currentYear env.currentMonth }, trace)

-- ===========================================================
-- Batch orchestrator (src/main.ts lines 866-1032)
-- ===========================================================

/-- Chunk size of the batch orchestrator (CHUNK_SIZE = 3). -/
def CHUNK_SIZE : ℕ := 3

/-- Retry budget of the batch orchestrator (MAX_RETRIES = 1). -/
def MAX_RETRIES : ℕ := 1

/-- Outcome of the profile-start HTTP call for one attempt: success with a
port; 409 conflict with the port optionally recoverable through the status
endpoint (none covers both a failing status call and a missing port
field); 400 denial; or any other failure with its message. -/
inductive StartOut where
  | ok (port : ℕ)
  | conflict409 (recovered : Option ℕ)
  | denied400
  | fail (msg : JStr)

/-- External outcomes consumed by one attempt of processProfile. -/
structure AttemptEnv where
  startOut : StartOut
  fetchEnv : FetchEnv
  stopAfterErrOk : Bool

/-- Per-profile record pushed into the batch results array. -/
structure BatchRec where
  profileId : JStr
  success : Bool
  sellerId : Option JStr
  onHoldAmount : Option JStr
  sumAmount : Option JStr
  monthlyData : Option (List MonthEntry)
  message : JStr

/-- The skip record returned on a 400 start denial (src/main.ts line 922). -/
def skipRec (pid : JStr) : BatchRec :=
  { profileId := pid, success := false, sellerId := none, onHoldAmount := none,
    sumAmount := none, monthlyData := none,
    message := js "⚠ Skipped - Profile in use by another user" }

/-- The failure record of processProfile (src/main.ts lines 955 and 965). -/
def failRec (pid msg : JStr) : BatchRec :=
  { profileId := pid, success := false, sellerId := none, onHoldAmount := none,
    sumAmount := none, monthlyData := none, message := msg }

/-- The success record of processProfile (src/main.ts lines 938-946). -/
def successRec (pid : JStr) (d : FetchData) : BatchRec :=
  { profileId := pid, success := true, sellerId := some d.sellerId,
    onHoldAmount := some d.onHoldAmount, sumAmount := some d.sumAmount,
    monthlyData := some d.monthly, message := js "Data retrieval successful" }

/-- Model of the start block of processProfile (src/main.ts lines 896-927):
a direct success yields the port; a 409 falls back to the status endpoint
and either recovers the port or throws the conflict message; a 400 returns
the skip record; any other failure rethrows. -/
inductive StartPhase where
  | gotPort (port : ℕ) (trace : List CallEv)
  | skip400 (trace : List CallEv)
  | threw (msg : JStr) (trace : List CallEv)

def runStart : StartOut → StartPhase
  | .ok p => .gotPort p [CallEv.startCall]
  | .conflict409 (some p) => .gotPort p [CallEv.startCall, CallEv.statusCall]
  | .conflict409 none =>
    .threw (js "Profile conflict (409) - could not get port")
      [CallEv.startCall, CallEv.statusCall]
  | .denied400 => .skip400 [CallEv.startCall]
  | .fail m => .threw m [CallEv.startCall]

/-- Outcome of the try block of one processProfile attempt. -/
inductive TryOut where
  | skip : TryOut
  | okData (d : FetchData) : TryOut
  | err (msg : JStr) : TryOut
deriving DecidableEq

/-- One pass of the try block of processProfile (src/main.ts lines
890-946): start the profile, wait 3 s, then run the direct fetch. -/
def runTry (e : AttemptEnv) : TryOut × List CallEv :=
  match runStart e.startOut with
  | .skip400 tr => (.skip, tr)
  | .threw m tr => (.err m, tr)
  | .gotPort _ tr =>
    let f := fetchTikTokDataFast e.fetchEnv
    match f.1 with
    | .ok d => (.okData d, tr ++ [CallEv.sleepEv 3000] ++ f.2)
    | .error m => (.err m, tr ++ [CallEv.sleepEv 3000] ++ f.2)

/-- Messages treated as terminal by the catch block of processProfile
(src/main.ts line 954): no retry when the message mentions Skipped or
in use. -/
def skipLikeMsg (m : JStr) : Bool :=
  containsStr m (js "Skipped") || containsStr m (js "in use")

/-- Model of processProfile (src/main.ts lines 889-967): run the try
block; on a 400 denial return the skip record; on success return the
success record; on an error, attempt the profile stop (its failure
swallowed), return the failure immediately when the message is terminal,
otherwise retry once after a 5 s backoff while the retry budget lasts. -/
def processProfile (pid : JStr) (envs : ℕ → AttemptEnv) (retryCount : ℕ) :
    BatchRec × List CallEv :=
  match runTry (envs retryCount) with
  | (.skip, tr) => (skipRec pid, tr)
  | (.okData d, tr) => (successRec pid d, tr)
  | (.err m, tr) =>
    if skipLikeMsg m then
      (failRec pid m, tr ++ [CallEv.stopCall (envs retryCount).stopAfterErrOk])
    else if h : retryCount < MAX_RETRIES then
      ((processProfile pid envs (retryCount + 1)).1,
        tr ++ [CallEv.stopCall (envs retryCount).stopAfterErrOk] ++ [CallEv.sleepEv 5000] ++
          (processProfile pid envs (retryCount + 1)).2)
    else (failRec pid m, tr ++ [CallEv.stopCall (envs retryCount).stopAfterErrOk])
termination_by MAX_RETRIES - retryCount
decreasing_by all_goals omega

/-- Model of the chunked batch loop of the batch-fetch handler
(src/main.ts lines 969-1012): profile IDs are processed in sequential
chunks of CHUNK_SIZE; within a chunk the jobs are started concurrently
with staggered delays, but Promise.all returns their results in argument
order, so the chunk results are the chunk mapped through processProfile. -/
def batchFetchResults (envsOf : JStr → ℕ → AttemptEnv) (ids : List JStr) : List BatchRec :=
  if ids.isEmpty then []
  else
    (ids.take CHUNK_SIZE).map (fun id => (processProfile id (envsOf id) 0).1) ++
      batchFetchResults envsOf (ids.drop CHUNK_SIZE)
termination_by ids.length
decreasing_by
  simp only [List.length_drop]
  cases ids with
  | nil => simp_all
  | cons a l => simp [CHUNK_SIZE]; omega

/-- Start outcomes counting as a successful start: a direct success, or a
409 conflict whose port was recovered through the status endpoint. -/
def startSucceeded (s : StartOut) : Prop :=
  (∃ p, s = StartOut.ok p) ∨ (∃ p, s = StartOut.conflict409 (some p))

/-- Replace the outcomes of the stop API calls of an attempt (the stop
inside the fetch and the stop in the catch block) by given values. -/
def setStopFlags (e : AttemptEnv) (b1 b2 : Bool) : AttemptEnv :=
  { e with stopAfterErrOk := b2, fetchEnv := { e.fetchEnv with stopOk := b1 } }

/-- Recognizer for profile-start events in a trace. -/
def isStartCall : CallEv → Bool
  | .startCall => true
  | _ => false

/-- Recognizer for profile-stop events in a trace. -/
def isStopCall : CallEv → Bool
  | .stopCall _ => true
  | _ => false

/-- The message of the seller-id deadline throw (src/main.ts line 217). -/
def timeoutBrowserMsg : JStr :=
  js "Timeout: Could not find seller_id in Network, URL, or Page Content"

/-- A fetch run whose browser phase hit the seller-id deadline: nothing was
assigned before the throw. -/
def timeoutFetchEnv : FetchEnv :=
  { phase := BrowserPhase.err (js "") (js "") [] timeoutBrowserMsg, stopOk := true,
    api1 := Except.ok none, api2 := Except.ok none,
    monthlyApi := fun _ _ => Except.ok none, currentYear := 2025, currentMonth := 9 }

/-- Attempts whose start succeeds on port 9222 and whose fetch times out. -/
def sampleAttemptEnvs : ℕ → AttemptEnv :=
  fun _ => { startOut := StartOut.ok 9222, fetchEnv := timeoutFetchEnv, stopAfterErrOk := true }

/-- Attempts whose start is denied with a 400 by the control plane. -/
def deniedAttemptEnvs : ℕ → AttemptEnv :=
  fun _ =>
    { startOut := StartOut.denied400, fetchEnv := timeoutFetchEnv, stopAfterErrOk := true }

-- ===========================================================
-- Login automaton (tiktok-login.ts, loginTikTokSeller)
-- ===========================================================

/-- Result shape of loginTikTokSeller; requires2FA is an optional field. -/
structure LoginResult where
  success : Bool
  message : JStr
  requires2FA : Option Bool
deriving DecidableEq

/-- External observations consumed by one run of loginTikTokSeller:
connection or navigation throw, URLs at the three check points, whether
the form and the 2FA input appeared, the configured secret, the TOTP
service response, a throw during code entry, and the redirect outcome. -/
structure LoginEnv where
  thrownEarly : Option JStr
  afterNavigateUrl : JStr
  formFound : Bool
  urlAfterFormWait : JStr
  twoFAAppeared : Bool
  secret : Option JStr
  fetchedCode : Option JStr
  enterErr : Option JStr
  redirectedWithin15s : Bool
  urlAfter2FASubmit : JStr
  finalUrl : JStr
  errorElText : Option JStr

/-- Already-logged-in test after navigation (tiktok-login.ts line 135-137). -/
def isLoggedInAfterNavigate (u : JStr) : Bool :=
  containsStr u (js "homepage") || containsStr u (js "dashboard") ||
    (containsStr u (js "seller-us.tiktok.com") && containsStr u (js "setup="))

/-- Already-logged-in test after the form wait fails (line 150). -/
def isLoggedInAfterFormWait (u : JStr) : Bool :=
  containsStr u (js "homepage") || containsStr u (js "dashboard") ||
    containsStr u (js "setup=")

/-- Post-submission success test on the final URL (line 330). -/
def isLoggedInFinal (u : JStr) : Bool :=
  containsStr u (js "homepage") || containsStr u (js "dashboard") ||
    containsStr u (js "seller-us.tiktok.com/homepage")

/-- Redirect test inside the 2FA flow (lines 285 and 301). -/
def isDashboardUrl (u : JStr) : Bool :=
  containsStr u (js "homepage") || containsStr u (js "dashboard")

/-- Model of loginTikTokSeller (tiktok-login.ts lines 99-360), following
the branch structure of the source: early throw (caught by the outer
catch), already-logged-in short-circuits, form wait with one URL re-check,
the 2FA branch (TOTP fetch, code entry, redirect wait), and the final URL
inspection with error-element scraping. -/
def loginTikTokSeller (env : LoginEnv) : LoginResult :=
  match env.thrownEarly with
  | some m => { success := false, message := m, requires2FA := none }
  | none =>
    if isLoggedInAfterNavigate env.afterNavigateUrl then
      { success := true, message := js "Already logged in!", requires2FA := none }
    else if !env.formFound then
      if isLoggedInAfterFormWait env.urlAfterFormWait then
        { success := true, message := js "Already logged in!", requires2FA := none }
      else
        { success := false, message := js "Login form not found and not logged in",
          requires2FA := none }
    else if env.twoFAAppeared then
      match env.secret with
      | none =>
        { success := true, message := js "2FA required - please enter code manually",
          requires2FA := some true }
      | some _ =>
        match env.fetchedCode with
        | none =>
          { success := true, message := js "2FA required - please enter code manually",
            requires2FA := some true }
        | some _ =>
          match env.enterErr with
          | some m =>
            { success := false, message := js "2FA error: " ++ m, requires2FA := none }
          | none =>
            if env.redirectedWithin15s then
              { success := true, message := js "Login successful with 2FA!",
                requires2FA := none }
            else if isDashboardUrl env.urlAfter2FASubmit then
              { success := true, message := js "Login successful with 2FA!",
                requires2FA := none }
            else
              { success := true, message := js "2FA submitted - verifying in browser...",
                requires2FA := some true }
    else if isLoggedInFinal env.finalUrl then
      { success := true, message := js "Login successful!", requires2FA := none }
    else if containsStr env.finalUrl (js "login") then
      match env.errorElText with
      | some t =>
        { success := false, message := js "Login failed: " ++ t, requires2FA := none }
      | none =>
        { success := false, message := js "Login failed - still on login page",
          requires2FA := none }
    else
      { success := true, message := js "Login submitted - check browser for result",
        requires2FA := none }

-- ===========================================================
-- Credential store (src/credentials-reader.ts)
-- ===========================================================

/-- One credential row (ProfileCredentials). -/
structure ProfileCredentials where
  profileId : JStr
  profileName : JStr
  email : JStr
  password : JStr
  twoFactorSecret : Option JStr
deriving DecidableEq

/-- Model of getCredentialsByProfileId (src/credentials-reader.ts lines
128-139): trim the query and return the first row whose stored profileId
is strictly equal to it, else null. -/
def getCredentialsByProfileId (store : List ProfileCredentials) (q : JStr) :
    Option ProfileCredentials :=
  store.find? (fun p => p.profileId == trimStr q)

/-- Model of getCredentialsByProfileName (src/credentials-reader.ts lines
144-159): a falsy (empty) query returns null; otherwise return the first
row whose lower-cased, trimmed name equals the lower-cased, trimmed query. -/
def getCredentialsByProfileName (store : List ProfileCredentials) (q : JStr) :
    Option ProfileCredentials :=
  if q.isEmpty then none
  else store.find? (fun p => trimStr (lowerStr p.profileName) == trimStr (lowerStr q))

/-- Concrete credential rows for exercising the lookup functions. -/
def aliceRow : ProfileCredentials :=
  { profileId := js "p1", profileName := js "Alice", email := js "a@x.com",
    password := js "pw1", twoFactorSecret := none }

def bobRow : ProfileCredentials :=
  { profileId := js "p2", profileName := js "Bob", email := js "b@x.com",
    password := js "pw2", twoFactorSecret := none }

def sampleStore : List ProfileCredentials := [aliceRow, bobRow]

/-- A spreadsheet row as produced by sheet_to_json: header/value pairs.
Cell values are modelled as strings (String(v) in the source), with JS
truthiness as non-emptiness. -/
abbrev SheetRow := List (JStr × JStr)

/-- Header normalisation (line 78): trim, lower-case, strip whitespace. -/
def cleanKey (k : JStr) : JStr :=
  (lowerStr (trimStr k)).filter (fun c => !isWsChar c)

/-- Model of normalizedRow[k]: later duplicate headers overwrite earlier
ones in the JS object, so the value is the last pair whose cleaned key
matches; an absent key is undefined, modelled as the empty (falsy) string. -/
def normLookup (row : SheetRow) (k : JStr) : JStr :=
  match (row.filter (fun kv => cleanKey kv.1 == k)).getLast? with
  | some kv => kv.2
  | none => js ""

/-- Model of one iteration of the row loop of parseExcelWorkbook (lines
72-97): resolve the header synonyms with JS or-fallbacks, drop the row
unless id, email and password are all truthy, and trim every kept field. -/
def rowPId (row : SheetRow) : JStr :=
  jsOrS (normLookup row (js "profileid")) (normLookup row (js "id"))

def rowPName (row : SheetRow) : JStr :=
  jsOrS (normLookup row (js "profilename")) (normLookup row (js "name"))

def rowEmail (row : SheetRow) : JStr :=
  jsOrS (normLookup row (js "email"))
    (jsOrS (normLookup row (js "username")) (normLookup row (js "user")))

def rowPass (row : SheetRow) : JStr :=
  jsOrS (normLookup row (js "password")) (normLookup row (js "pass"))

def parseRow (row : SheetRow) : Option ProfileCredentials :=
  if (rowPId row).isEmpty || (rowEmail row).isEmpty || (rowPass row).isEmpty then none
  else some
    { profileId := trimStr (rowPId row)
      profileName := trimStr (jsOrS (rowPName row) (js ""))
      email := trimStr (rowEmail row)
      password := trimStr (rowPass row)
      twoFactorSecret :=
        if (normLookup row (js "twofactorsecret")).isEmpty then none
        else some (trimStr (normLookup row (js "twofactorsecret"))) }

/-- Result triple of the load functions. -/
structure LoadResult where
  success : Bool
  count : ℕ
  message : JStr

/-- Model of parseExcelWorkbook (src/credentials-reader.ts lines 59-112)
acting on the sessionCredentials store: an empty sheet or a sheet with no
valid row leaves the store untouched; otherwise the store is replaced
wholesale by the parsed rows. -/
def parseExcelWorkbook (store : List ProfileCredentials) (rawData : List SheetRow) :
    LoadResult × List ProfileCredentials :=
  if rawData.isEmpty then
    ({ success := false, count := 0, message := js "Excel file is empty" }, store)
  else
    let profiles := rawData.filterMap parseRow
    if profiles.isEmpty then
      ({ success := false, count := 0,
         message := js "No valid profiles found (Check headers: profileId, email, password)" },
       store)
    else
      ({ success := true, count := profiles.length,
         message := js "Loaded " ++ (Nat.repr profiles.length).toList ++
           js " profiles from Excel" }, profiles)

/-- Model of loadCredentialsFromExcelBuffer (lines 48-57): a throwing
workbook read is caught before parseExcelWorkbook runs, leaving the store
untouched. -/
def loadCredentialsFromExcelBuffer (store : List ProfileCredentials)
    (wb : Except JStr (List SheetRow)) : LoadResult × List ProfileCredentials :=
  match wb with
  | .error m =>
    ({ success := false, count := 0, message := js "Excel Buffer Error: " ++ m }, store)
  | .ok rows => parseExcelWorkbook store rows

-- ===========================================================
-- Theorems
-- ===========================================================

-- Helper lemmas for the allocator

lemma getNextWindowPosition_free (used : Finset ℕ) (hfree : ∃ i < MAX_WINDOWS, i ∉ used) :
    (getNextWindowPosition used).1 ∉ used ∧ (getNextWindowPosition used).1 < MAX_WINDOWS ∧
      (∀ j < (getNextWindowPosition used).1, j ∈ used) ∧
      (getNextWindowPosition used).2 = insert (getNextWindowPosition used).1 used := by
  obtain ⟨i, hi, hmem⟩ := hfree
  have hfind : ((List.range MAX_WINDOWS).find? (fun i => decide (i ∉ used))).isSome := by
    rw [List.find?_isSome]
    exact ⟨i, by simpa using hi, by simpa using hmem⟩
  obtain ⟨k, hk⟩ := Option.isSome_iff_exists.mp hfind
  have hkmem : k ∈ List.range MAX_WINDOWS := List.mem_of_find?_eq_some hk
  have hkp : k ∉ used := by simpa using List.find?_some hk
  constructor
  · simp only [getNextWindowPosition, hk]
    exact hkp
  refine ⟨?_, ?_, ?_⟩
  · simp only [getNextWindowPosition, hk]
    simpa using hkmem
  · intro j hj
    simp only [getNextWindowPosition, hk] at hj
    by_contra hnot
    have := List.find?_eq_some.mp hk
    obtain ⟨-, as, bs, hsplit, hprior⟩ := this
    have hjr : j ∈ List.range MAX_WINDOWS := by
      simp only [List.mem_range]
      calc j < k := hj
        _ < MAX_WINDOWS := by simpa using hkmem
    rw [hsplit] at hjr
    rcases List.mem_append.mp hjr with hja | hjb
    · have := hprior j hja
      simp only [Bool.not_eq_true', decide_eq_false_iff_not, Decidable.not_not] at this
      exact hnot this
    · rcases List.mem_cons.mp hjb with rfl | hjb2
      · exact absurd rfl (Nat.ne_of_lt hj)
      · -- range is sorted: elements after k are > k
        have hpw : List.Pairwise (· < ·) (List.range MAX_WINDOWS) := List.pairwise_lt_range _
        rw [hsplit] at hpw
        have := (List.pairwise_append.mp hpw).2.1
        have hkj := (List.pairwise_cons.mp this).1 j hjb2
        omega
  · simp only [getNextWindowPosition, hk]

lemma getNextWindowPosition_full (used : Finset ℕ) (hfull : ∀ i < MAX_WINDOWS, i ∈ used) :
    getNextWindowPosition used = (0, used) := by
  have hfind : (List.range MAX_WINDOWS).find? (fun i => decide (i ∉ used)) = none := by
    rw [List.find?_eq_none]
    intro i hi
    simpa using hfull i (by simpa using hi)
  unfold getNextWindowPosition
  rw [hfind]

lemma allocRun_subset_range (used : Finset ℕ) (hsub : used ⊆ Finset.range MAX_WINDOWS)
    (ops : List AllocOp) (hsafe : allocSafe used ops = true) :
    allocRun used ops ⊆ Finset.range MAX_WINDOWS := by
  induction ops generalizing used with
  | nil => simpa [allocRun] using hsub
  | cons op ops ih =>
    cases op with
    | acq =>
      simp only [allocSafe, Bool.and_eq_true, decide_eq_true_eq] at hsafe
      obtain ⟨hcard, hrest⟩ := hsafe
      apply ih
      · have hfree : ∃ i < MAX_WINDOWS, i ∉ used := by
          by_contra hnone
          push_neg at hnone
          have : Finset.range MAX_WINDOWS ⊆ used := by
            intro i hi
            exact hnone i (Finset.mem_range.mp hi)
          have := Finset.card_le_card this
          simp only [Finset.card_range] at this
          omega
        obtain ⟨-, hlt, -, heq⟩ := getNextWindowPosition_free used hfree
        simp only [allocStep, heq]
        intro x hx
        rcases Finset.mem_insert.mp hx with rfl | hx2
        · exact Finset.mem_range.mpr hlt
        · exact hsub hx2
      · exact hrest
    | rel i =>
      apply ih
      · intro x hx
        exact hsub (Finset.mem_of_mem_erase hx)
      · exact hsafe

/-- C7: the window slot allocator. (1) When some slot in [0, MAX_WINDOWS) is
free, acquire returns the lowest unused slot, which is not currently held,
and records it as held, so a slot is never handed to two concurrently-held
acquisitions as long as at most MAX_WINDOWS are held at once. (2) When all
MAX_WINDOWS slots are held, acquire wraps around and returns slot 0 without
recording it. (3) release is idempotent. (4) releasing an unacquired slot
is a no-op. (5) Along any acquire/release trace from the empty set in which
every acquire happens with fewer than MAX_WINDOWS slots held, the held set
stays inside [0, MAX_WINDOWS). -/
theorem windowSlotAllocator_spec (used : Finset ℕ) (i : ℕ) (ops : List AllocOp) :
    ((∃ j < MAX_WINDOWS, j ∉ used) →
      (getNextWindowPosition used).1 ∉ used ∧ (getNextWindowPosition used).1 < MAX_WINDOWS ∧
      (∀ j < (getNextWindowPosition used).1, j ∈ used) ∧
      (getNextWindowPosition used).2 = insert (getNextWindowPosition used).1 used) ∧
    ((∀ j < MAX_WINDOWS, j ∈ used) → getNextWindowPosition used = (0, used)) ∧
    (releaseWindowPosition (releaseWindowPosition used i) i = releaseWindowPosition used i) ∧
    (i ∉ used → releaseWindowPosition used i = used) ∧
    (allocSafe (∅ : Finset ℕ) ops = true → allocRun ∅ ops ⊆ Finset.range MAX_WINDOWS) := by
  refine ⟨getNextWindowPosition_free used, getNextWindowPosition_full used, ?_, ?_, ?_⟩
  · simp [releaseWindowPosition, Finset.erase_idem]
  · intro hnot
    simp [releaseWindowPosition, Finset.erase_eq_of_not_mem hnot]
  · intro hsafe
    exact allocRun_subset_range ∅ (by simp) ops hsafe

/-- Witness for C7 at a concrete state: used = the set 1, 2; the lowest free
slot is 0; releasing slot 3 (unheld) is a no-op; a concrete safe trace stays
in range. -/
theorem windowSlotAllocator_spec_witness :
    ((getNextWindowPosition {1, 2}).1 ∉ ({1, 2} : Finset ℕ) ∧
      (getNextWindowPosition {1, 2}).2 = insert (getNextWindowPosition {1, 2}).1 {1, 2}) ∧
    releaseWindowPosition ({1, 2} : Finset ℕ) 3 = {1, 2} ∧
    allocRun ∅ [AllocOp.acq, AllocOp.acq, AllocOp.rel 0, AllocOp.acq] ⊆ Finset.range MAX_WINDOWS := by
  have h := windowSlotAllocator_spec ({1, 2} : Finset ℕ) 3
    [AllocOp.acq, AllocOp.acq, AllocOp.rel 0, AllocOp.acq]
  have hfree : ∃ j < MAX_WINDOWS, j ∉ ({1, 2} : Finset ℕ) := ⟨0, by decide, by decide⟩
  exact ⟨⟨(h.1 hfree).1, (h.1 hfree).2.2.2⟩, h.2.2.2.1 (by decide), h.2.2.2.2 (by decide)⟩

-- Helper lemmas for the calendar model

lemma jsYearAdj_eq (y : ℤ) (h : 100 ≤ y) : jsYearAdj y = y := by
  unfold jsYearAdj
  rw [if_neg]
  omega

lemma dayFromYear_succ_leap (y : ℤ) (h : isLeapYear y = true) :
    dayFromYear (y + 1) = dayFromYear y + 366 := by
  simp only [isLeapYear, Bool.and_eq_true, Bool.or_eq_true, beq_iff_eq, bne_iff_ne, ne_eq] at h
  unfold dayFromYear
  omega

lemma dayFromYear_succ_common (y : ℤ) (h : isLeapYear y = false) :
    dayFromYear (y + 1) = dayFromYear y + 365 := by
  simp only [isLeapYear, Bool.and_eq_false_iff, Bool.or_eq_false_iff, beq_eq_false_iff_ne,
    ne_eq, bne_eq_false_iff_eq] at h
  unfold dayFromYear
  omega

lemma getMonthTimestamps_boundaries (y : ℤ) (m : ℕ) :
    (getMonthTimestamps y m).1 = firstInstantUTCm8 y m ∧
      (getMonthTimestamps y m).2 = lastInstantUTCm8 y m := by
  constructor <;>
    simp only [getMonthTimestamps, firstInstantUTCm8, lastInstantUTCm8, dateUTC, makeTime,
      msPerDay] <;> ring

lemma getMonthTimestamps_lt (y : ℤ) (m : ℕ) (hm : m < 12) :
    (getMonthTimestamps y m).1 < (getMonthTimestamps y m).2 := by
  have h1 : m / 12 = 0 := Nat.div_eq_of_lt (by omega)
  have h2 : m % 12 = m := Nat.mod_eq_of_lt (by omega)
  simp only [getMonthTimestamps, dateUTC, lastDayOfMonth, makeDay, makeTime, msPerDay, h1, h2,
    Nat.cast_zero, add_zero]
  clear h1 h2
  cases hl : isLeapYear (jsYearAdj y) <;> interval_cases m <;>
    simp [monthStart, daysInMonthTbl] <;> omega

lemma getMonthTimestamps_step (y : ℤ) (m : ℕ) (hy : 100 ≤ y) (hm : m + 1 < 12) :
    (getMonthTimestamps y m).2 < (getMonthTimestamps y (m + 1)).1 := by
  have hadj : jsYearAdj y = y := jsYearAdj_eq y hy
  have h1 : m / 12 = 0 := Nat.div_eq_of_lt (by omega)
  have h2 : m % 12 = m := Nat.mod_eq_of_lt (by omega)
  have h3 : (m + 1) / 12 = 0 := Nat.div_eq_of_lt (by omega)
  have h4 : (m + 1) % 12 = m + 1 := Nat.mod_eq_of_lt (by omega)
  simp only [getMonthTimestamps, dateUTC, lastDayOfMonth, makeDay, makeTime, msPerDay, hadj,
    h1, h2, h3, h4, Nat.cast_zero, add_zero]
  clear h1 h2 h3 h4
  have hm2 : m < 11 := by omega
  clear hm
  cases hl : isLeapYear y <;> interval_cases m <;>
    simp [monthStart, daysInMonthTbl] <;> omega

lemma getMonthTimestamps_yearStep (y : ℤ) (hy : 100 ≤ y) :
    (getMonthTimestamps y 11).2 < (getMonthTimestamps (y + 1) 0).1 := by
  have hadj : jsYearAdj y = y := jsYearAdj_eq y hy
  have hadj2 : jsYearAdj (y + 1) = y + 1 := jsYearAdj_eq (y + 1) (by omega)
  simp only [getMonthTimestamps, dateUTC, lastDayOfMonth, makeDay, makeTime, msPerDay, hadj,
    hadj2]
  norm_num
  cases hl : isLeapYear y with
  | true =>
    have := dayFromYear_succ_leap y hl
    simp [monthStart, daysInMonthTbl]
    omega
  | false =>
    have := dayFromYear_succ_common y hl
    simp [monthStart, daysInMonthTbl]
    omega

lemma monthlySeries_props (api : ℤ → ℕ → Except Unit (Option JStr))
    (cy : ℤ) (cm : ℕ) (hcm : cm ≤ 11) (hcy : 1971 ≤ cy) :
    (monthlySeries api cy cm).length = 12 + (cm + 1) ∧
    (monthlySeries api cy cm).map (fun e => (e.date_time_lower, e.date_time_upper)) =
      (List.range 12).map
        (fun m => (firstInstantUTCm8 (cy - 1) m, lastInstantUTCm8 (cy - 1) m)) ++
        (List.range (cm + 1)).map (fun m => (firstInstantUTCm8 cy m, lastInstantUTCm8 cy m)) ∧
    List.Chain' (fun a b => a.date_time_upper < b.date_time_lower) (monthlySeries api cy cm) ∧
    ∀ e ∈ monthlySeries api cy cm, e.date_time_lower < e.date_time_upper := by
  have hfun : ∀ y : ℤ,
      (fun m => ((fetchMonth api y m).date_time_lower, (fetchMonth api y m).date_time_upper)) =
        (fun m : ℕ => (firstInstantUTCm8 y m, lastInstantUTCm8 y m)) := by
    intro y
    funext m
    have hb := getMonthTimestamps_boundaries y m
    show ((getMonthTimestamps y m).1, (getMonthTimestamps y m).2) = _
    rw [hb.1, hb.2]
  refine ⟨?_, ?_, ?_, ?_⟩
  · simp [monthlySeries]
  · simp only [monthlySeries, List.map_append, List.map_map]
    rw [show ((fun e : MonthEntry => (e.date_time_lower, e.date_time_upper)) ∘
          fun m => fetchMonth api (cy - 1) m) =
        (fun m => ((fetchMonth api (cy - 1) m).date_time_lower,
          (fetchMonth api (cy - 1) m).date_time_upper)) from rfl,
      show ((fun e : MonthEntry => (e.date_time_lower, e.date_time_upper)) ∘
          fun m => fetchMonth api cy m) =
        (fun m => ((fetchMonth api cy m).date_time_lower,
          (fetchMonth api cy m).date_time_upper)) from rfl,
      hfun (cy - 1), hfun cy]
  · rw [monthlySeries, List.chain'_append]
    refine ⟨?_, ?_, ?_⟩
    · rw [List.chain'_map, show (12 : ℕ) = Nat.succ 11 from rfl, List.chain'_range_succ]
      intro m hm
      exact getMonthTimestamps_step (cy - 1) m (by omega) (by omega)
    · rw [List.chain'_map, show cm + 1 = Nat.succ cm from rfl, List.chain'_range_succ]
      intro m hm
      exact getMonthTimestamps_step cy m (by omega) (by omega)
    · have hA : ((List.range 12).map (fun m => fetchMonth api (cy - 1) m)).getLast? =
          some (fetchMonth api (cy - 1) 11) := by rfl
      have hB : ((List.range (cm + 1)).map (fun m => fetchMonth api cy m)).head? =
          some (fetchMonth api cy 0) := by
        rw [List.range_succ_eq_map]
        rfl
      rw [hA, hB]
      intro x hx z hz
      rw [Option.mem_def, Option.some_inj] at hx hz
      subst hx
      subst hz
      have h := getMonthTimestamps_yearStep (cy - 1) (by omega)
      rw [show cy - 1 + 1 = cy from by omega] at h
      exact h
  · intro e he
    rw [monthlySeries, List.mem_append] at he
    rcases he with he | he <;> rw [List.mem_map] at he <;> obtain ⟨m, hm, rfl⟩ := he <;>
      rw [List.mem_range] at hm
    · exact getMonthTimestamps_lt (cy - 1) m (by omega)
    · exact getMonthTimestamps_lt cy m (by omega)


-- Shape lemmas for the direct data fetch

lemma fetchTikTokDataFast_trace (env : FetchEnv) :
    (fetchTikTokDataFast env).2 = [CallEv.stopCall env.stopOk] := by
  unfold fetchTikTokDataFast
  dsimp only
  split
  · rfl
  · split <;> rfl

lemma fetchTikTokDataFast_ok_monthly (env : FetchEnv) (r : FetchData)
    (h : (fetchTikTokDataFast env).1 = Except.ok r) :
    r.monthly = monthlySeries env.monthlyApi env.currentYear env.currentMonth := by
  unfold fetchTikTokDataFast at h
  dsimp only at h
  split at h
  · simp at h
  · split at h
    · simp at h
    · rw [Except.ok.injEq] at h
      rw [← h]

/-- C1: for every run of the direct data fetch (with a sane clock: current
month index at most 11, current year at least 1971), the monthly
settlement series returned in the result has exactly 12 entries for the
previous calendar year followed by currentMonth + 1 entries for the
current year; the entries map month-for-month onto the exact UTC-8 month
boundaries (first instant 00:00:00.000 of day 1, last instant 23:59:59.999
of the last day); consecutive entries are in strict chronological order
and each entry's lower bound precedes its upper bound. -/
theorem monthly_settlement_series_spec (env : FetchEnv)
    (hcm : env.currentMonth ≤ 11) (hcy : 1971 ≤ env.currentYear) :
    (∀ r : FetchData, (fetchTikTokDataFast env).1 = Except.ok r →
      r.monthly = monthlySeries env.monthlyApi env.currentYear env.currentMonth) ∧
    (monthlySeries env.monthlyApi env.currentYear env.currentMonth).length =
      12 + (env.currentMonth + 1) ∧
    (monthlySeries env.monthlyApi env.currentYear env.currentMonth).map
        (fun e => (e.date_time_lower, e.date_time_upper)) =
      (List.range 12).map (fun m => (firstInstantUTCm8 (env.currentYear - 1) m,
        lastInstantUTCm8 (env.currentYear - 1) m)) ++
        (List.range (env.currentMonth + 1)).map
          (fun m => (firstInstantUTCm8 env.currentYear m, lastInstantUTCm8 env.currentYear m)) ∧
    List.Chain' (fun a b => a.date_time_upper < b.date_time_lower)
      (monthlySeries env.monthlyApi env.currentYear env.currentMonth) ∧
    ∀ e ∈ monthlySeries env.monthlyApi env.currentYear env.currentMonth,
      e.date_time_lower < e.date_time_upper := by
  have hp := monthlySeries_props env.monthlyApi env.currentYear env.currentMonth hcm hcy
  exact ⟨fun r h => fetchTikTokDataFast_ok_monthly env r h, hp.1, hp.2.1, hp.2.2.1, hp.2.2.2⟩

/-- Witness for C1 at October 2025 (current month index 9) with a concrete
fetch environment: the series has 22 entries and is chronologically
ordered. -/
theorem monthly_settlement_series_spec_witness :
    (monthlySeries (fun _ _ => Except.ok none) 2025 9).length = 12 + (9 + 1) ∧
    List.Chain' (fun a b => a.date_time_upper < b.date_time_lower)
      (monthlySeries (fun _ _ => Except.ok none) 2025 9) := by
  have h := monthly_settlement_series_spec
    { phase := BrowserPhase.ok (js "1") (js "1") [], stopOk := true,
      api1 := Except.ok none, api2 := Except.ok none,
      monthlyApi := fun _ _ => Except.ok none, currentYear := 2025, currentMonth := 9 }
    (by decide) (by decide)
  exact ⟨h.2.1, h.2.2.2.1⟩

-- C5: extraction and the two seller identifiers

lemma scanNetwork_sound (l : List UrlObs) (p : JStr × JStr) (h : scanNetwork l = some p) :
    ∃ w ∈ l, extractSellerIdFromUrl w = some p := by
  induction l with
  | nil => simp [scanNetwork] at h
  | cons u rest ih =>
    rw [scanNetwork] at h
    split at h
    · split at h
      · exact ⟨u, by simp, by simp_all⟩
      · obtain ⟨w, hw, hex⟩ := ih h
        exact ⟨w, by simp [hw], hex⟩
    · obtain ⟨w, hw, hex⟩ := ih h
      exact ⟨w, by simp [hw], hex⟩

lemma extractSellerIdFromUrl_sound (u : UrlObs) (s o : JStr)
    (h : extractSellerIdFromUrl u = some (s, o)) :
    u.valid = true ∧ searchParamsGet u.params (js "seller_id") = some s ∧
      searchParamsGet u.params (js "oec_seller_id") = some o ∧ s ≠ [] ∧ o ≠ [] := by
  unfold extractSellerIdFromUrl at h
  cases hval : u.valid with
  | false =>
    rw [hval] at h
    simp at h
  | true =>
    rw [hval] at h
    simp only [if_true] at h
    refine ⟨rfl, ?_⟩
    cases hs : searchParamsGet u.params (js "seller_id") with
    | none =>
      rw [hs] at h
      simp at h
    | some sv =>
      rw [hs] at h
      cases ho : searchParamsGet u.params (js "oec_seller_id") with
      | none =>
        rw [ho] at h
        simp at h
      | some ov =>
        rw [ho] at h
        dsimp only at h
        split at h
        · simp at h
        · rename_i hne
          rw [Option.some_inj, Prod.mk.injEq] at h
          obtain ⟨rfl, rfl⟩ := h
          simp only [Bool.or_eq_true, List.isEmpty_iff] at hne
          push_neg at hne
          exact ⟨rfl, rfl, hne.1, hne.2⟩

/-- C5 counterexample: a run in which no network response and no URL ever
shows the oec_seller_id parameter (indeed no query parameter at all), and
the DOM poll finds the single identifier 123 — extraction nevertheless
yields a full identifier pair (123, 123), handing a session to the direct
data client with the one identifier duplicated, contradicting the claim
that finding one identifier alone never yields a session. -/
theorem extraction_single_identifier_counterexample :
    findSeller domOnlyRun = some (js "123", js "123") ∧
    searchParamsGet domOnlyRun.currentUrl.params (js "oec_seller_id") = none ∧
    domOnlyRun.network = [] := by
  refine ⟨by decide, by decide, rfl⟩

/-- C5 amended: the URL-based strategies (network listener and URL poll)
yield a pair only when both the seller_id and oec_seller_id query
parameters are present and non-empty, but the DOM strategy yields a pair
from the single harvested seller_id, duplicated into both fields; so every
harvested identifier pair either comes from a URL carrying both
identifiers or has its two fields equal to the one DOM identifier. -/
theorem extraction_identifier_sources (u : UrlObs) (env : PollEnv) (s o : JStr) :
    (extractSellerIdFromUrl u = some (s, o) →
      u.valid = true ∧ searchParamsGet u.params (js "seller_id") = some s ∧
        searchParamsGet u.params (js "oec_seller_id") = some o ∧ s ≠ [] ∧ o ≠ []) ∧
    (findSeller env = some (s, o) →
      (∃ w : UrlObs, (w ∈ env.network ∨ w = env.currentUrl) ∧
          extractSellerIdFromUrl w = some (s, o)) ∨
        (env.dom = some s ∧ o = s ∧ s ≠ [])) := by
  refine ⟨extractSellerIdFromUrl_sound u s o, ?_⟩
  intro h
  unfold findSeller at h
  split at h
  · rename_i p hscan
    rw [Option.some_inj] at h
    subst h
    obtain ⟨w, hw, hex⟩ := scanNetwork_sound _ _ hscan
    exact Or.inl ⟨w, Or.inl hw, hex⟩
  · split at h
    · rename_i p hurl
      rw [Option.some_inj] at h
      subst h
      unfold pollCurrentUrl at hurl
      split at hurl
      · exact Or.inl ⟨env.currentUrl, Or.inr rfl, hurl⟩
      · simp at hurl
    · unfold pollDom at h
      split at h
      · simp at h
      · rename_i id2 hdom
        split at h
        · simp at h
        · rename_i hne
          rw [Option.some_inj, Prod.mk.injEq] at h
          obtain ⟨rfl, rfl⟩ := h
          exact Or.inr ⟨hdom, rfl, by simpa [List.isEmpty_iff] using hne⟩

/-- Witness for the amended C5 statement: a URL carrying both identifiers
yields the pair (7, 8) with both parameters present; and at the DOM-only
run the harvested pair (123, 123) is classified as DOM-sourced. -/
theorem extraction_identifier_sources_witness :
    (urlWithBothIds.valid = true ∧
      searchParamsGet urlWithBothIds.params (js "seller_id") = some (js "7") ∧
      searchParamsGet urlWithBothIds.params (js "oec_seller_id") = some (js "8") ∧
      js "7" ≠ [] ∧ js "8" ≠ []) ∧
    ((∃ w : UrlObs, (w ∈ domOnlyRun.network ∨ w = domOnlyRun.currentUrl) ∧
        extractSellerIdFromUrl w = some (js "123", js "123")) ∨
      (domOnlyRun.dom = some (js "123") ∧ js "123" = js "123" ∧ js "123" ≠ [])) := by
  refine ⟨(extraction_identifier_sources urlWithBothIds domOnlyRun (js "7") (js "8")).1
    (by decide), ?_⟩
  exact (extraction_identifier_sources urlWithBothIds domOnlyRun
    (js "123") (js "123")).2 (by decide)

-- C6: the two-factor manual-entry terminal state

/-- C6: in the login automaton, when the flow reaches the two-factor
branch (no early throw, not already logged in, form found, 2FA input
appeared) and either no TOTP secret is configured or the TOTP code fetch
returns no code, the outcome is success = true with requires2FA = true and
the manual-entry message — a defined terminal state, not a failure. -/
theorem login_twofactor_manual_state (env : LoginEnv)
    (h1 : env.thrownEarly = none)
    (h2 : isLoggedInAfterNavigate env.afterNavigateUrl = false)
    (h3 : env.formFound = true)
    (h4 : env.twoFAAppeared = true)
    (h5 : env.secret = none ∨ env.fetchedCode = none) :
    loginTikTokSeller env =
      { success := true, message := js "2FA required - please enter code manually",
        requires2FA := some true } := by
  unfold loginTikTokSeller
  rw [h1, h2, h3, h4]
  simp only [Bool.false_eq_true, if_false, Bool.not_true, if_true]
  rcases h5 with h5 | h5
  · rw [h5]
  · cases hsec : env.secret with
    | none => rfl
    | some sec =>
      rw [h5]

/-- Witness for C6: a concrete run that reaches the 2FA branch with no
secret configured returns the manual-entry terminal state. -/
theorem login_twofactor_manual_state_witness :
    loginTikTokSeller
        { thrownEarly := none, afterNavigateUrl := js "https://seller-us.tiktok.com/account/login",
          formFound := true, urlAfterFormWait := js "",
          twoFAAppeared := true, secret := none, fetchedCode := none, enterErr := none,
          redirectedWithin15s := false, urlAfter2FASubmit := js "", finalUrl := js "",
          errorElText := none } =
      { success := true, message := js "2FA required - please enter code manually",
        requires2FA := some true } :=
  login_twofactor_manual_state _ rfl (by decide) rfl rfl (Or.inl rfl)

-- C8: credential lookup

lemma trimStr_idem (s : JStr) : trimStr (trimStr s) = trimStr s := by
  show List.rdropWhile isWsChar (List.dropWhile isWsChar
      (List.rdropWhile isWsChar (List.dropWhile isWsChar s))) =
    List.rdropWhile isWsChar (List.dropWhile isWsChar s)
  have hdw : (List.rdropWhile isWsChar (List.dropWhile isWsChar s)).dropWhile isWsChar =
      List.rdropWhile isWsChar (List.dropWhile isWsChar s) := by
    cases hc : List.rdropWhile isWsChar (List.dropWhile isWsChar s) with
    | nil => simp
    | cons a t2 =>
      obtain ⟨r, hr⟩ := List.rdropWhile_prefix (l := List.dropWhile isWsChar s) (p := isWsChar)
      rw [hc] at hr
      have hcons : List.dropWhile isWsChar s = a :: (t2 ++ r) := by
        rw [← hr]
        simp
      have hidem := List.dropWhile_idempotent (p := isWsChar) (l := s)
      rw [hcons, List.dropWhile_cons] at hidem
      by_cases hw : isWsChar a = true
      · rw [if_pos hw] at hidem
        have hlen := congrArg List.length hidem
        have hle := (List.dropWhile_sublist (l := t2 ++ r) isWsChar).length_le
        simp only [List.length_cons] at hlen
        omega
      · rw [List.dropWhile_cons, if_neg hw]
  rw [hdw, List.rdropWhile_idempotent]

lemma parseRow_profileId_trimmed (row : SheetRow) (c : ProfileCredentials)
    (h : parseRow row = some c) : trimStr c.profileId = c.profileId := by
  unfold parseRow at h
  split at h
  · simp at h
  · rw [Option.some_inj] at h
    rw [← h]
    exact trimStr_idem _

lemma getCredentialsByProfileId_of_mem (store : List ProfileCredentials)
    (c : ProfileCredentials)
    (hself : ∀ p ∈ store, trimStr p.profileId = p.profileId)
    (hnd : (store.map (fun p => p.profileId)).Nodup) (hc : c ∈ store) :
    getCredentialsByProfileId store c.profileId = some c := by
  unfold getCredentialsByProfileId
  have hq : trimStr c.profileId = c.profileId := hself c hc
  induction store with
  | nil => simp at hc
  | cons p rest ih =>
    rw [List.map_cons, List.nodup_cons] at hnd
    rcases List.mem_cons.mp hc with rfl | hcr
    · rw [List.find?_cons_of_pos]
      rw [hq]
      simp
    · rw [List.find?_cons_of_neg, ih (fun x hx => hself x (List.mem_cons_of_mem p hx)) hnd.2 hcr]
      rw [hq]
      simp only [beq_iff_eq]
      intro hcontra
      exact hnd.1 (hcontra ▸ List.mem_map_of_mem (fun p => p.profileId) hcr)

lemma getCredentialsByProfileId_of_not_mem (store : List ProfileCredentials) (q : JStr)
    (hq : trimStr q ∉ store.map (fun p => p.profileId)) :
    getCredentialsByProfileId store q = none := by
  unfold getCredentialsByProfileId
  rw [List.find?_eq_none]
  intro p hp
  simp only [beq_iff_eq]
  intro hcontra
  exact hq (hcontra ▸ List.mem_map_of_mem (fun p => p.profileId) hp)

/-- C8: credential lookup. (1) With distinct stored profile IDs that are
already trimmed (as the spreadsheet parser produces them), lookup by ID
returns exactly the stored row for every loaded ID. (2) Lookup of an ID
whose trimmed form is not among the stored IDs returns null. (3) Name
lookup only ever succeeds on a case-insensitive match of the exact full
stored name. (4) In particular, querying a proper substring of a loaded
name (one that does not itself match a full stored name, case-insensitively
and after trimming) returns null. -/
theorem credentials_lookup_spec (store : List ProfileCredentials) (q : JStr)
    (c : ProfileCredentials) :
    ((∀ p ∈ store, trimStr p.profileId = p.profileId) →
      (store.map (fun p => p.profileId)).Nodup →
      c ∈ store → getCredentialsByProfileId store c.profileId = some c) ∧
    (trimStr q ∉ store.map (fun p => p.profileId) →
      getCredentialsByProfileId store q = none) ∧
    (getCredentialsByProfileName store q = some c →
      q ≠ [] ∧ c ∈ store ∧ trimStr (lowerStr c.profileName) = trimStr (lowerStr q)) ∧
    ((∃ p ∈ store, containsStr (lowerStr p.profileName) (lowerStr q) = true ∧
        lowerStr q ≠ lowerStr p.profileName) →
      (∀ p ∈ store, trimStr (lowerStr p.profileName) ≠ trimStr (lowerStr q)) →
      getCredentialsByProfileName store q = none) := by
  refine ⟨fun h1 h2 h3 => getCredentialsByProfileId_of_mem store c h1 h2 h3,
    getCredentialsByProfileId_of_not_mem store q, ?_, ?_⟩
  · intro h
    unfold getCredentialsByProfileName at h
    split at h
    · simp at h
    · rename_i hq
      refine ⟨by simpa [List.isEmpty_iff] using hq, List.mem_of_find?_eq_some h, ?_⟩
      have := List.find?_some h
      simpa using this
  · intro hsub hne
    unfold getCredentialsByProfileName
    split
    · rfl
    · rw [List.find?_eq_none]
      intro p hp
      simp only [beq_iff_eq]
      exact hne p hp

/-- Witness for C8 on a concrete two-row store: lookup of id p2 returns the
second row; an unknown id returns null; querying the proper substring Ali
of the loaded name Alice returns null. -/
theorem credentials_lookup_spec_witness :
    getCredentialsByProfileId sampleStore (js "p2") = some bobRow ∧
    getCredentialsByProfileId sampleStore (js "p9") = none ∧
    getCredentialsByProfileName sampleStore (js "Ali") = none := by
  refine ⟨?_, ?_, ?_⟩
  · exact (credentials_lookup_spec sampleStore (js "p2") bobRow).1
      (by decide) (by decide) (by decide)
  · exact (credentials_lookup_spec sampleStore (js "p9") aliceRow).2.1 (by decide)
  · exact (credentials_lookup_spec sampleStore (js "Ali") aliceRow).2.2.2
      ⟨aliceRow, by decide, by decide, by decide⟩ (by decide)

-- C10: failed credential loads leave the session store unchanged

/-- C10: a credential load that fails — the workbook read throws, the sheet
is empty, or no row carries all of id, email and password — leaves the
in-memory session credential store unchanged, so every lookup by ID or
name returns exactly what it returned before the failed load; the
wholesale replacement happens only on a successful load, whose parsed row
list is non-empty. -/
theorem credentials_load_failure_preserves_store (store : List ProfileCredentials)
    (wb : Except JStr (List SheetRow)) :
    ((loadCredentialsFromExcelBuffer store wb).1.success = false →
      (loadCredentialsFromExcelBuffer store wb).2 = store ∧
      (∀ q, getCredentialsByProfileId (loadCredentialsFromExcelBuffer store wb).2 q =
        getCredentialsByProfileId store q) ∧
      (∀ q, getCredentialsByProfileName (loadCredentialsFromExcelBuffer store wb).2 q =
        getCredentialsByProfileName store q)) ∧
    ((loadCredentialsFromExcelBuffer store wb).1.success = true →
      ∃ rows, wb = Except.ok rows ∧
        (loadCredentialsFromExcelBuffer store wb).2 = rows.filterMap parseRow ∧
        (loadCredentialsFromExcelBuffer store wb).2 ≠ []) := by
  cases wb with
  | error m =>
    refine ⟨fun _ => ⟨rfl, fun q => rfl, fun q => rfl⟩, fun h => absurd h (by simp
      [loadCredentialsFromExcelBuffer])⟩
  | ok rows =>
    have heq : loadCredentialsFromExcelBuffer store (Except.ok rows) =
        parseExcelWorkbook store rows := rfl
    rw [heq]
    unfold parseExcelWorkbook
    split
    · exact ⟨fun _ => ⟨rfl, fun q => rfl, fun q => rfl⟩, fun h => absurd h (by simp)⟩
    · dsimp only
      split
      · exact ⟨fun _ => ⟨rfl, fun q => rfl, fun q => rfl⟩, fun h => absurd h (by simp)⟩
      · rename_i hne
        refine ⟨fun h => absurd h (by simp), fun _ => ⟨rows, rfl, rfl, ?_⟩⟩
        simpa [List.isEmpty_iff] using hne

/-- Witness for C10: loading a sheet whose only row lacks email and
password fails and leaves the concrete two-row store, and its lookups,
unchanged. -/
theorem credentials_load_failure_preserves_store_witness :
    (loadCredentialsFromExcelBuffer sampleStore
        (Except.ok [[(js "profileid", js "p3")]])).1.success = false ∧
    (loadCredentialsFromExcelBuffer sampleStore
        (Except.ok [[(js "profileid", js "p3")]])).2 = sampleStore ∧
    getCredentialsByProfileId
        (loadCredentialsFromExcelBuffer sampleStore
          (Except.ok [[(js "profileid", js "p3")]])).2 (js "p1") =
      getCredentialsByProfileId sampleStore (js "p1") := by
  have h := credentials_load_failure_preserves_store sampleStore
    (Except.ok [[(js "profileid", js "p3")]])
  have hfail : (loadCredentialsFromExcelBuffer sampleStore
      (Except.ok [[(js "profileid", js "p3")]])).1.success = false := by decide
  exact ⟨hfail, (h.1 hfail).1, (h.1 hfail).2.1 (js "p1")⟩

-- Helper lemmas for the batch orchestrator

lemma fetchTikTokDataFast_fst_stopOk (env : FetchEnv) (b : Bool) :
    (fetchTikTokDataFast { env with stopOk := b }).1 = (fetchTikTokDataFast env).1 := by
  unfold fetchTikTokDataFast
  dsimp only
  split
  · rfl
  · split <;> rfl

lemma runTry_fst_setStopFlags (e : AttemptEnv) (b1 b2 : Bool) :
    (runTry (setStopFlags e b1 b2)).1 = (runTry e).1 := by
  unfold runTry
  have hst : (setStopFlags e b1 b2).startOut = e.startOut := rfl
  have hfe : (setStopFlags e b1 b2).fetchEnv = { e.fetchEnv with stopOk := b1 } := rfl
  rw [hst, hfe]
  cases hrs : runStart e.startOut with
  | gotPort p tr =>
    dsimp only
    rw [fetchTikTokDataFast_fst_stopOk]
    cases (fetchTikTokDataFast e.fetchEnv).1 <;> rfl
  | skip400 tr => rfl
  | threw m tr => rfl

lemma runTry_countP_start (e : AttemptEnv) : (runTry e).2.countP isStartCall = 1 := by
  unfold runTry
  cases hrs : e.startOut with
  | ok p =>
    dsimp only [runStart]
    cases (fetchTikTokDataFast e.fetchEnv).1 <;>
      simp [List.countP_append, fetchTikTokDataFast_trace, List.countP_cons, isStartCall,
        List.countP_nil]
  | conflict409 r =>
    cases r with
    | none => simp [runStart, List.countP_cons, isStartCall, List.countP_nil]
    | some p =>
      dsimp only [runStart]
      cases (fetchTikTokDataFast e.fetchEnv).1 <;>
        simp [List.countP_append, fetchTikTokDataFast_trace, List.countP_cons, isStartCall,
          List.countP_nil]
  | denied400 => simp [runStart, List.countP_cons, isStartCall, List.countP_nil]
  | fail m => simp [runStart, List.countP_cons, isStartCall, List.countP_nil]

lemma runTry_not_skip (e : AttemptEnv) (h : startSucceeded e.startOut) :
    ∀ tr, runTry e ≠ (TryOut.skip, tr) := by
  intro tr
  unfold runTry
  rcases h with ⟨p, hp⟩ | ⟨p, hp⟩ <;> rw [hp] <;> dsimp only [runStart] <;>
    cases (fetchTikTokDataFast e.fetchEnv).1 <;> simp

lemma runTry_stop_in_trace (e : AttemptEnv) (h : startSucceeded e.startOut) :
    CallEv.stopCall e.fetchEnv.stopOk ∈ (runTry e).2 := by
  unfold runTry
  rcases h with ⟨p, hp⟩ | ⟨p, hp⟩ <;> rw [hp] <;> dsimp only [runStart] <;>
    cases (fetchTikTokDataFast e.fetchEnv).1 <;>
      simp [fetchTikTokDataFast_trace]

lemma processProfile_profileId (pid : JStr) (envs : ℕ → AttemptEnv) :
    ∀ n rc, MAX_RETRIES - rc ≤ n → (processProfile pid envs rc).1.profileId = pid := by
  intro n
  induction n with
  | zero =>
    intro rc h
    unfold processProfile
    rcases hr : runTry (envs rc) with ⟨out, tr⟩
    cases out with
    | skip => rfl
    | okData d => rfl
    | err m =>
      dsimp only
      split
      · rfl
      · rw [dif_neg (by omega)]
        rfl
  | succ n ih =>
    intro rc h
    unfold processProfile
    rcases hr : runTry (envs rc) with ⟨out, tr⟩
    cases out with
    | skip => rfl
    | okData d => rfl
    | err m =>
      dsimp only
      split
      · rfl
      · by_cases hlt : rc < MAX_RETRIES
        · rw [dif_pos hlt]
          exact ih (rc + 1) (by omega)
        · rw [dif_neg hlt]
          rfl

lemma processProfile_fst_setStopFlags (pid : JStr) (envs : ℕ → AttemptEnv) (b1 b2 : Bool) :
    ∀ n rc, MAX_RETRIES - rc ≤ n →
      (processProfile pid (fun i => setStopFlags (envs i) b1 b2) rc).1 =
        (processProfile pid envs rc).1 := by
  intro n
  induction n with
  | zero =>
    intro rc h
    unfold processProfile
    have h1 : (runTry (setStopFlags (envs rc) b1 b2)).1 = (runTry (envs rc)).1 :=
      runTry_fst_setStopFlags (envs rc) b1 b2
    rcases hr : runTry (envs rc) with ⟨out, tr⟩
    rcases hr2 : runTry (setStopFlags (envs rc) b1 b2) with ⟨out2, tr2⟩
    rw [hr, hr2] at h1
    dsimp only at h1
    subst h1
    cases out2 with
    | skip => rfl
    | okData d => rfl
    | err m =>
      dsimp only
      split
      · rfl
      · rw [dif_neg (by omega), dif_neg (by omega)]
  | succ n ih =>
    intro rc h
    unfold processProfile
    have h1 : (runTry (setStopFlags (envs rc) b1 b2)).1 = (runTry (envs rc)).1 :=
      runTry_fst_setStopFlags (envs rc) b1 b2
    rcases hr : runTry (envs rc) with ⟨out, tr⟩
    rcases hr2 : runTry (setStopFlags (envs rc) b1 b2) with ⟨out2, tr2⟩
    rw [hr, hr2] at h1
    dsimp only at h1
    subst h1
    cases out2 with
    | skip => rfl
    | okData d => rfl
    | err m =>
      dsimp only
      split
      · rfl
      · by_cases hlt : rc < MAX_RETRIES
        · rw [dif_pos hlt, dif_pos hlt]
          dsimp only
          exact ih (rc + 1) (by omega)
        · rw [dif_neg hlt, dif_neg hlt]

/-- C2: for every batch job whose profile start succeeded (directly or by
recovering the port through the 409/status fallback), a control-plane stop
call appears in the job trace before the job finalizes, on every exit path
(success, extraction failure, or exception: inside fetchTikTokDataFast the
stop runs unconditionally after the browser phase, and the catch block of
processProfile issues another best-effort stop); and the outcomes of the
stop calls themselves never influence the job result — their failure is
swallowed. -/
theorem profile_stop_always_invoked (pid : JStr) (envs : ℕ → AttemptEnv) (b1 b2 : Bool) :
    (startSucceeded (envs 0).startOut →
      ∃ ok, CallEv.stopCall ok ∈ (processProfile pid envs 0).2) ∧
    (processProfile pid (fun i => setStopFlags (envs i) b1 b2) 0).1 =
      (processProfile pid envs 0).1 := by
  constructor
  · intro h
    unfold processProfile
    rcases hr : runTry (envs 0) with ⟨out, tr⟩
    cases out with
    | skip => exact absurd hr (runTry_not_skip (envs 0) h tr)
    | okData d =>
      refine ⟨(envs 0).fetchEnv.stopOk, ?_⟩
      have := runTry_stop_in_trace (envs 0) h
      rw [hr] at this
      exact this
    | err m =>
      dsimp only
      split
      · exact ⟨(envs 0).stopAfterErrOk, by simp⟩
      · by_cases hlt : (0 : ℕ) < MAX_RETRIES
        · rw [dif_pos hlt]
          exact ⟨(envs 0).stopAfterErrOk, by simp⟩
        · rw [dif_neg hlt]
          exact ⟨(envs 0).stopAfterErrOk, by simp⟩
  · exact processProfile_fst_setStopFlags pid envs b1 b2 MAX_RETRIES 0 (by omega)

/-- Witness for C2: a job that starts on port 9222 and then times out in
extraction still has a stop call in its trace, and flipping both stop
outcomes to false leaves the job result unchanged. -/
theorem profile_stop_always_invoked_witness :
    (∃ ok, CallEv.stopCall ok ∈ (processProfile (js "p1") sampleAttemptEnvs 0).2) ∧
    (processProfile (js "p1") (fun i => setStopFlags (sampleAttemptEnvs i) false false) 0).1 =
      (processProfile (js "p1") sampleAttemptEnvs 0).1 := by
  have h := profile_stop_always_invoked (js "p1") sampleAttemptEnvs false false
  exact ⟨h.1 (Or.inl ⟨9222, rfl⟩), h.2⟩

/-- C3: the batch retry policy. A job whose start is denied with a
control-plane 400 yields the skip record immediately, with exactly one
start call and no retry. A job whose attempt fails for a non-terminal
(transient) reason is retried exactly once after the fixed 5 s backoff;
when the retry fails too, the job is reported permanently failed with the
second failure message, and precisely two start calls were made. -/
theorem batch_retry_policy (pid : JStr) (envs : ℕ → AttemptEnv) (m0 m1 : JStr)
    (tr0 tr1 : List CallEv) :
    ((envs 0).startOut = StartOut.denied400 →
      processProfile pid envs 0 = (skipRec pid, [CallEv.startCall])) ∧
    (runTry (envs 0) = (TryOut.err m0, tr0) → skipLikeMsg m0 = false →
      runTry (envs 1) = (TryOut.err m1, tr1) → skipLikeMsg m1 = false →
      (processProfile pid envs 0).1 = failRec pid m1 ∧
      (processProfile pid envs 0).2.countP isStartCall = 2 ∧
      CallEv.sleepEv 5000 ∈ (processProfile pid envs 0).2) := by
  constructor
  · intro h
    have hruns : runTry (envs 0) = (TryOut.skip, [CallEv.startCall]) := by
      unfold runTry
      rw [h]
      rfl
    unfold processProfile
    rw [hruns]
  · intro hr0 hs0 hr1 hs1
    have hc0 : tr0.countP isStartCall = 1 := by
      have := runTry_countP_start (envs 0)
      rw [hr0] at this
      exact this
    have hc1 : tr1.countP isStartCall = 1 := by
      have := runTry_countP_start (envs 1)
      rw [hr1] at this
      exact this
    have hpp1 : processProfile pid envs 1 =
        (failRec pid m1, tr1 ++ [CallEv.stopCall (envs 1).stopAfterErrOk]) := by
      conv_lhs => unfold processProfile
      rw [hr1]
      dsimp only
      rw [if_neg (by simp [hs1]), dif_neg (by simp [MAX_RETRIES])]
    have hpp0 : processProfile pid envs 0 =
        ((processProfile pid envs 1).1,
          tr0 ++ [CallEv.stopCall (envs 0).stopAfterErrOk] ++ [CallEv.sleepEv 5000] ++
            (processProfile pid envs 1).2) := by
      conv_lhs => unfold processProfile
      rw [hr0]
      dsimp only
      rw [if_neg (by simp [hs0]), dif_pos (by simp [MAX_RETRIES])]
    rw [hpp0, hpp1]
    refine ⟨rfl, ?_, by simp⟩
    simp only [List.countP_append, hc0, hc1, List.countP_cons, List.countP_nil]
    rfl

/-- Witness for C3: a 400-denied job yields the skip record with one start
call; a job that times out in extraction twice is reported failed with the
extraction-failure message after exactly two start calls and a 5 s backoff. -/
theorem batch_retry_policy_witness :
    processProfile (js "p1") deniedAttemptEnvs 0 = (skipRec (js "p1"), [CallEv.startCall]) ∧
    (processProfile (js "p2") sampleAttemptEnvs 0).1 =
      failRec (js "p2") (js "Failed to extract seller_id or cookies") ∧
    (processProfile (js "p2") sampleAttemptEnvs 0).2.countP isStartCall = 2 ∧
    CallEv.sleepEv 5000 ∈ (processProfile (js "p2") sampleAttemptEnvs 0).2 := by
  have h1 := (batch_retry_policy (js "p1") deniedAttemptEnvs (js "") (js "") [] []).1 rfl
  have h2 := (batch_retry_policy (js "p2") sampleAttemptEnvs
    (js "Failed to extract seller_id or cookies") (js "Failed to extract seller_id or cookies")
    [CallEv.startCall, CallEv.sleepEv 3000, CallEv.stopCall true]
    [CallEv.startCall, CallEv.sleepEv 3000, CallEv.stopCall true]).2
    rfl (by decide) rfl (by decide)
  exact ⟨h1, h2.1, h2.2.1, h2.2.2⟩

-- C4: extraction timeout

lemma classifyNetworkError_timeoutMsg : classifyNetworkError timeoutBrowserMsg = js "" := by
  decide

/-- C4 counterexample: when the browser phase hits the seller-id deadline,
the specific timeout error (whose message begins with the word Timeout) is
caught and swallowed; the job failure message produced by the fetch is the
generic extraction-failure message, which does not contain the word
timeout in either capitalisation — so the claim that the result carries a
timeout message is false, even though the stop call is still made. -/
theorem extraction_timeout_message_counterexample :
    (fetchTikTokDataFast timeoutFetchEnv).1 =
      Except.error (js "Failed to extract seller_id or cookies") ∧
    containsStr timeoutBrowserMsg (js "Timeout") = true ∧
    containsStr (js "Failed to extract seller_id or cookies") (js "Timeout") = false ∧
    containsStr (js "Failed to extract seller_id or cookies") (js "timeout") = false ∧
    (fetchTikTokDataFast timeoutFetchEnv).2 = [CallEv.stopCall true] := by
  refine ⟨rfl, by decide, by decide, by decide, rfl⟩

/-- C4 amended: when the browser phase of the direct fetch throws the
seller-id deadline error (no seller id assigned), the fetch fails with
success = false carrying the generic message Failed to extract seller_id
or cookies (the specific timeout message is swallowed by the catch), and
the control-plane stop call is still made, before the failure is
produced. -/
theorem extraction_timeout_result (env : FetchEnv) (oec : JStr) (ck : List CookieData)
    (h1 : env.phase = BrowserPhase.err (js "") oec ck timeoutBrowserMsg) :
    (fetchTikTokDataFast env).1 =
      Except.error (js "Failed to extract seller_id or cookies") ∧
    (fetchTikTokDataFast env).2 = [CallEv.stopCall env.stopOk] := by
  refine ⟨?_, fetchTikTokDataFast_trace env⟩
  unfold fetchTikTokDataFast
  rw [h1]
  dsimp only
  rw [if_pos (by simp [js]), if_pos (by rw [classifyNetworkError_timeoutMsg]; rfl)]

/-- Witness for the amended C4 statement at the concrete timeout run. -/
theorem extraction_timeout_result_witness :
    (fetchTikTokDataFast timeoutFetchEnv).1 =
      Except.error (js "Failed to extract seller_id or cookies") ∧
    (fetchTikTokDataFast timeoutFetchEnv).2 = [CallEv.stopCall timeoutFetchEnv.stopOk] :=
  extraction_timeout_result timeoutFetchEnv (js "") [] rfl

-- C9: batch result ordering

lemma batchFetchResults_eq_map (envsOf : JStr → ℕ → AttemptEnv) (ids : List JStr) :
    batchFetchResults envsOf ids =
      ids.map (fun id => (processProfile id (envsOf id) 0).1) := by
  suffices h : ∀ n (l : List JStr), l.length ≤ n →
      batchFetchResults envsOf l = l.map (fun id => (processProfile id (envsOf id) 0).1) by
    exact h ids.length ids le_rfl
  intro n
  induction n with
  | zero =>
    intro l h
    have : l = [] := List.length_eq_zero.mp (by omega)
    subst this
    unfold batchFetchResults
    simp
  | succ n ih =>
    intro l h
    unfold batchFetchResults
    by_cases hne : l.isEmpty
    · rw [if_pos hne]
      rw [List.isEmpty_iff.mp hne]
      simp
    · rw [if_neg hne]
      have hlen : l.length ≠ 0 := by
        intro h0
        exact hne (by simpa [List.isEmpty_iff] using List.length_eq_zero.mp h0)
      rw [ih (l.drop CHUNK_SIZE) (by simp only [List.length_drop, CHUNK_SIZE]; omega)]
      rw [← List.map_append, List.take_append_drop]

/-- C9: for every input list of profile IDs, the batch orchestrator
produces exactly one result record per input ID, in the input order (the
record at each position carries the ID at that position), regardless of
the order in which the concurrently started jobs inside each chunk
complete — Promise.all returns chunk results in argument order, and chunks
are appended sequentially. -/
theorem batch_results_order (envsOf : JStr → ℕ → AttemptEnv) (ids : List JStr) :
    (batchFetchResults envsOf ids).map (fun r => r.profileId) = ids ∧
    (batchFetchResults envsOf ids).length = ids.length := by
  rw [batchFetchResults_eq_map, List.map_map]
  constructor
  · have hcongr : ∀ id ∈ ids,
        ((fun r : BatchRec => r.profileId) ∘ fun id => (processProfile id (envsOf id) 0).1) id =
          id :=
      fun id _ => processProfile_profileId id (envsOf id) MAX_RETRIES 0 (by omega)
    rw [List.map_congr_left hcongr]
    exact List.map_id ids
  · simp
